import Mathlib

/-!
Shallow embedding of `ip_hue/hue_lamp.py` (gamut geometry, RGB→xy color
conversion, and the stateful command-coalescing `HueLamp` logic), together
with theorems settling the specification claims about that code.

Geometry is embedded polymorphically over a linear ordered field so that the
same definitions serve both exact evaluation (at `ℚ`) and the real-valued
color pipeline (at `ℝ`, where `sqrt` and the gamma power live).
-/

/-- A 2D point, modelling the `np.array((x, y))` pairs built by `cp`. -/
structure Pt (α : Type) where
  x : α
  y : α
  deriving DecidableEq

instance {α : Type} [Sub α] : Sub (Pt α) where
  sub a b := ⟨a.x - b.x, a.y - b.y⟩

instance {α : Type} [Add α] : Add (Pt α) where
  add a b := ⟨a.x + b.x, a.y + b.y⟩

instance {α : Type} [Mul α] : HMul (Pt α) α (Pt α) where
  hMul a t := ⟨a.x * t, a.y * t⟩

/-- Dot product of two 2D points, modelling `np.dot` on 2-vectors. -/
def dot {α : Type} [Mul α] [Add α] (a b : Pt α) : α :=
  a.x * b.x + a.y * b.y

@[simp] theorem Pt.sub_def {α : Type} [Sub α] (a b : Pt α) :
    a - b = ⟨a.x - b.x, a.y - b.y⟩ := rfl

@[simp] theorem Pt.add_def {α : Type} [Add α] (a b : Pt α) :
    a + b = ⟨a.x + b.x, a.y + b.y⟩ := rfl

@[simp] theorem Pt.hmul_def {α : Type} [Mul α] (a : Pt α) (t : α) :
    a * t = ⟨a.x * t, a.y * t⟩ := rfl

@[simp] theorem dot_def {α : Type} [Mul α] [Add α] (a b : Pt α) :
    dot a b = a.x * b.x + a.y * b.y := rfl

/-- The `Gamut` namedtuple: three vertices plus the precomputed
`constants` tuple `(v0, v1, dot00, dot01, dot11, inv_denom)` (flattened
into named fields here). -/
structure Gamut (α : Type) where
  red : Pt α
  green : Pt α
  blue : Pt α
  v0 : Pt α
  v1 : Pt α
  dot00 : α
  dot01 : α
  dot11 : α
  inv_denom : α
  deriving DecidableEq

/-- The `_make_gamut` constructor: precomputes the basis constants. -/
def _make_gamut {α : Type} [Field α] (red green blue : Pt α) : Gamut α :=
  let v0 := green - red
  let v1 := blue - red
  let dot00 := dot v0 v0
  let dot01 := dot v0 v1
  let dot11 := dot v1 v1
  let inv_denom := 1 / (dot00 * dot11 - dot01 * dot01)
  ⟨red, green, blue, v0, v1, dot00, dot01, dot11, inv_denom⟩

/-- The `GAMUT_A` constant (living colors). -/
def GAMUT_A {α : Type} [Field α] : Gamut α :=
  _make_gamut ⟨0.704, 0.296⟩ ⟨0.2151, 0.7106⟩ ⟨0.138, 0.08⟩

/-- The `GAMUT_B` constant (hue bulbs). -/
def GAMUT_B {α : Type} [Field α] : Gamut α :=
  _make_gamut ⟨0.675, 0.322⟩ ⟨0.409, 0.518⟩ ⟨0.167, 0.04⟩

/-- The `xy_color_in_gamut` containment test exactly as the source computes
it; note the source line `u = (d11 * d02 - d01 + d12) * inv_denom`, which
adds `d12` instead of multiplying `d01 * d12`. -/
def xy_color_in_gamut {α : Type} [LinearOrderedField α]
    (color : Pt α) (gamut : Gamut α) : Prop :=
  let v2 := color - gamut.red
  let d02 := dot gamut.v0 v2
  let d12 := dot gamut.v1 v2
  let u := (gamut.dot11 * d02 - gamut.dot01 + d12) * gamut.inv_denom
  let v := (gamut.dot00 * d12 - gamut.dot01 * d02) * gamut.inv_denom
  u ≥ 0 ∧ v ≥ 0 ∧ u + v < 1

instance {α : Type} [LinearOrderedField α]
    [DecidableRel ((· ≤ ·) : α → α → Prop)]
    [DecidableRel ((· < ·) : α → α → Prop)]
    (color : Pt α) (gamut : Gamut α) : Decidable (xy_color_in_gamut color gamut) := by
  unfold xy_color_in_gamut
  infer_instance

/-- The containment test as the SPEC states it: barycentric coordinate
`u = (d11*d02 - d01*d12)*invDenom` (product, not sum).  Kept separate so the
source function can be compared against the spec's formula. -/
def xy_in_gamut_specFormula {α : Type} [LinearOrderedField α]
    (color : Pt α) (gamut : Gamut α) : Prop :=
  let v2 := color - gamut.red
  let d02 := dot gamut.v0 v2
  let d12 := dot gamut.v1 v2
  let u := (gamut.dot11 * d02 - gamut.dot01 * d12) * gamut.inv_denom
  let v := (gamut.dot00 * d12 - gamut.dot01 * d02) * gamut.inv_denom
  u ≥ 0 ∧ v ≥ 0 ∧ u + v < 1

instance {α : Type} [LinearOrderedField α]
    [DecidableRel ((· ≤ ·) : α → α → Prop)]
    [DecidableRel ((· < ·) : α → α → Prop)]
    (color : Pt α) (gamut : Gamut α) : Decidable (xy_in_gamut_specFormula color gamut) := by
  unfold xy_in_gamut_specFormula
  infer_instance

/-- Strict interiority of a point in the gamut triangle, via the correct
barycentric coordinates (both strictly positive, sum strictly below 1). -/
def strictlyInside {α : Type} [LinearOrderedField α]
    (color : Pt α) (gamut : Gamut α) : Prop :=
  let v2 := color - gamut.red
  let d02 := dot gamut.v0 v2
  let d12 := dot gamut.v1 v2
  let u := (gamut.dot11 * d02 - gamut.dot01 * d12) * gamut.inv_denom
  let v := (gamut.dot00 * d12 - gamut.dot01 * d02) * gamut.inv_denom
  0 < u ∧ 0 < v ∧ u + v < 1

instance {α : Type} [LinearOrderedField α]
    [DecidableRel ((· ≤ ·) : α → α → Prop)]
    [DecidableRel ((· < ·) : α → α → Prop)]
    (color : Pt α) (gamut : Gamut α) : Decidable (strictlyInside color gamut) := by
  unfold strictlyInside
  infer_instance

/-- The `closest_point_on_line` function exactly as the source computes it;
note the final source line `return (A + AB) * t`, which scales the whole sum
by `t` instead of returning `A + AB*t`. -/
def closest_point_on_line {α : Type} [LinearOrderedField α]
    (line : Pt α × Pt α) (P : Pt α) : Pt α :=
  let A := line.1
  let B := line.2
  let AB := B - A
  let ab2 := dot AB AB
  let ap_ab := dot (P - A) AB
  let t := ap_ab / ab2
  let t := max (min t 1) 0
  (A + AB) * t

/-- The projection-onto-segment operation as the SPEC states it:
result `A + AB*t` with the same clamped parameter `t`. -/
def closestOnSegment_specFormula {α : Type} [LinearOrderedField α]
    (A B P : Pt α) : Pt α :=
  let AB := B - A
  let ab2 := dot AB AB
  let ap_ab := dot (P - A) AB
  let t := ap_ab / ab2
  let t := max (min t 1) 0
  A + AB * t

/-- The `distance` function: Euclidean distance via `np.sqrt(np.dot(D, D))`. -/
noncomputable def distance (A B : Pt ℝ) : ℝ :=
  let D := A - B
  Real.sqrt (dot D D)

/-- The `get_closest_color_in_gamut` function: evaluates
`closest_point_on_line` on the three gamut edges (red-green, blue-red,
green-blue) and keeps the first point of minimal distance, modelling
Python's left-to-right `min` scan. -/
noncomputable def get_closest_color_in_gamut (color : Pt ℝ) (gamut : Gamut ℝ) : Pt ℝ :=
  let p1 := closest_point_on_line (gamut.red, gamut.green) color
  let p2 := closest_point_on_line (gamut.blue, gamut.red) color
  let p3 := closest_point_on_line (gamut.green, gamut.blue) color
  let best1 := (p1, distance color p1)
  let best2 := if distance color p2 < best1.2 then (p2, distance color p2) else best1
  let best3 := if distance color p3 < best2.2 then (p3, distance color p3) else best2
  best3.1

/-- The `coerce_into_gamut` function: replace the color by the closest
boundary point only when the containment test fails. -/
noncomputable def coerce_into_gamut (color : Pt ℝ) (gamut : Gamut ℝ) : Pt ℝ :=
  if ¬ xy_color_in_gamut color gamut then get_closest_color_in_gamut color gamut
  else color

/-- The `gamma_correction` function on a unipolar float. -/
noncomputable def gamma_correction (value : ℝ) : ℝ :=
  if value > 0.04045 then ((value + 0.055) / 1.055) ^ (2.4 : ℝ)
  else value / 12.92

/-- The per-channel correction step at the top of `rgb_to_xy`: apply
`gamma_correction` to each channel when the flag is set. -/
noncomputable def rgbCorrected (color_rgb : ℝ × ℝ × ℝ) (gamma_correct : Bool) : ℝ × ℝ × ℝ :=
  if gamma_correct then
    (gamma_correction color_rgb.1, gamma_correction color_rgb.2.1,
      gamma_correction color_rgb.2.2)
  else color_rgb

/-- X row of the Wide RGB D65 matrix in `rgb_to_xy`. -/
def xyzX (c : ℝ × ℝ × ℝ) : ℝ :=
  c.1 * 0.664511 + c.2.1 * 0.154324 + c.2.2 * 0.162028

/-- Y row of the Wide RGB D65 matrix in `rgb_to_xy`. -/
def xyzY (c : ℝ × ℝ × ℝ) : ℝ :=
  c.1 * 0.283881 + c.2.1 * 0.668433 + c.2.2 * 0.047685

/-- Z row of the Wide RGB D65 matrix in `rgb_to_xy`. -/
def xyzZ (c : ℝ × ℝ × ℝ) : ℝ :=
  c.1 * 0.000088 + c.2.1 * 0.072310 + c.2.2 * 0.986039

/-- The chromaticity-and-luminance part of `rgb_to_xy`, before the gamut
coercion: `(x, y) = (X/div, Y/div)` with the `div == 0` guard yielding
`(0, 0)`, paired with `Y`. -/
noncomputable def rgb_to_xy_chroma (color_rgb : ℝ × ℝ × ℝ) (gamma_correct : Bool) :
    Pt ℝ × ℝ :=
  let c := rgbCorrected color_rgb gamma_correct
  let X := xyzX c
  let Y := xyzY c
  let Z := xyzZ c
  let div := X + Y + Z
  (if div = 0 then ⟨0, 0⟩ else ⟨X / div, Y / div⟩, Y)

/-- The `rgb_to_xy` function: chromaticity (coerced into gamut) plus `Y` as
relative luminance. -/
noncomputable def rgb_to_xy (color_rgb : ℝ × ℝ × ℝ) (gamut : Gamut ℝ)
    (gamma_correct : Bool) : Pt ℝ × ℝ :=
  let xyY := rgb_to_xy_chroma color_rgb gamma_correct
  (coerce_into_gamut xyY.1 gamut, xyY.2)

/-- The `_DEFAULT_TRANSITION_TIME` constant (deciseconds). -/
def _DEFAULT_TRANSITION_TIME : ℤ := 4

/-- The `_MIN_CT` constant. -/
def _MIN_CT : ℚ := 153

/-- The `_MAX_CT` constant. -/
def _MAX_CT : ℚ := 500

/-- The tracked lamp state: the fields of `HueLamp.state` that the code
reads (`on`, `bri`, `xy`, `ct`, `colormode`).  Chromaticity pairs are kept
at `ℚ` so the coalescer stays fully executable. -/
structure LampState where
  «on» : Bool
  bri : ℤ
  xy : ℚ × ℚ
  ct : ℤ
  colormode : String
  deriving DecidableEq

/-- A command dict over the fixed key set `on`, `bri`, `xy`, `ct`,
`transitiontime`; a `none` field models an absent key. -/
structure Command where
  «on» : Option Bool
  bri : Option ℤ
  xy : Option (ℚ × ℚ)
  ct : Option ℤ
  transitiontime : Option ℤ
  deriving DecidableEq

/-- Python `int()` on a rational: truncation toward zero. -/
def pyInt (q : ℚ) : ℤ :=
  if 0 ≤ q then ⌊q⌋ else ⌈q⌉

/-- Whether `needle` occurs as a prefix of `hay` (on character lists). -/
def isPrefixOfL : List Char → List Char → Bool
  | [], _ => true
  | _ :: _, [] => false
  | a :: as, b :: bs => a = b && isPrefixOfL as bs

/-- Whether `needle` occurs as a contiguous sublist of `hay`. -/
def containsL (needle : List Char) : List Char → Bool
  | [] => needle.isEmpty
  | h :: t => isPrefixOfL needle (h :: t) || containsL needle t

/-- Python's `needle in hay` substring test. -/
def strContains (hay needle : String) : Bool :=
  containsL needle.data hay.data

/-- The message fragment `send_command` looks for in a `QhueException`. -/
def poweredOffMsg : String := "Device is set to off."

/-- The tail of `HueLamp._filter_command` after the `bri` handling: force
`on: true` if the lamp is off, resolve and suppress the default transition
time, let `xy` override `ct`, and drop `xy`/`ct` repeats in the matching
color mode. -/
def filterRest (s : LampState) (selfTtime : ℤ) (c0 : Command) : Command :=
  let c1 := if s.«on» = false then { c0 with «on» := some true } else c0
  let tt := c1.transitiontime.getD selfTtime
  let c2 := if tt ≠ _DEFAULT_TRANSITION_TIME then { c1 with transitiontime := some tt }
            else { c1 with transitiontime := none }
  let c3 := if c2.xy.isSome then { c2 with ct := none } else c2
  let c4 := if c3.xy = some s.xy ∧ s.colormode = "xy" then { c3 with xy := none } else c3
  let c5 := if c4.ct = some s.ct ∧ s.colormode = "ct" then { c4 with ct := none } else c4
  c5

/-- The `HueLamp._filter_command` method; `none` models the Python `None`
return (the NoOp case), `some c` the returned (possibly empty) dict. -/
def filterCommand (s : LampState) (selfTtime : ℤ) (c : Command) : Option Command :=
  match c.bri with
  | none => some (filterRest s selfTtime c)
  | some bri =>
    if bri = 0 then
      if s.«on» = false then none
      else some { «on» := some false, bri := none, xy := none, ct := none,
                  transitiontime := none }
    else
      some (filterRest s selfTtime
        { c with bri := if bri ≠ s.bri then some bri else none })

/-- A transport exception: `qhue` models a `QhueException` carrying its
message (the only exception class the code catches); `other` models any
other exception raised by `light.state`. -/
inductive PyError where
  | qhue (msg : String)
  | other
  deriving DecidableEq

/-- Outcome of one `light.state(**commands)` call. -/
inductive TransportResult where
  | success
  | raise (e : PyError)
  deriving DecidableEq

/-- Observable outcome of `HueLamp.send_command`: the resulting tracked
state, the commands passed to `light.state` in order, and the exception
that propagated to the caller (if any). -/
structure SendOutcome where
  state : LampState
  sent : List Command
  raised : Option PyError
  deriving DecidableEq

/-- The colormode bookkeeping in `send_command`: `ct` if the sent command
had a `ct` key, overridden by `xy` if it had an `xy` key, else unchanged. -/
def newColormode (s : LampState) (c : Command) : String :=
  let cm := s.colormode
  let cm := if c.ct.isSome then "ct" else cm
  if c.xy.isSome then "xy" else cm

/-- The state merge in `send_command` via `refresh_state(dict(commands,
colormode=colormode))`: overwrite exactly the keys present in the sent
command, with the bookkept colormode. -/
def mergeState (s : LampState) (c : Command) (colormode : String) : LampState :=
  { «on» := c.«on».getD s.on
    bri := c.bri.getD s.bri
    xy := c.xy.getD s.xy
    ct := c.ct.getD s.ct
    colormode := colormode }

/-- The body of `HueLamp.send_command` after a non-`None` filtered command:
first `light.state` call (index 0 of `transport`), the powered-off retry
with `on: true` forced in (index 1), the silent fall-through for any other
`QhueException`, and the merge of local state afterwards. -/
def send_filtered (transport : Nat → TransportResult) (s : LampState)
    (cmds : Command) : SendOutcome :=
  match transport 0 with
  | .success => ⟨mergeState s cmds (newColormode s cmds), [cmds], none⟩
  | .raise .other => ⟨s, [cmds], some .other⟩
  | .raise (.qhue msg) =>
    if strContains msg poweredOffMsg then
      let cmds2 : Command := { cmds with «on» := some true }
      match transport 1 with
      | .success =>
        ⟨mergeState s cmds2 (newColormode s cmds2), [cmds, cmds2], none⟩
      | .raise e => ⟨s, [cmds, cmds2], some e⟩
    else
      ⟨mergeState s cmds (newColormode s cmds), [cmds], none⟩

/-- The `HueLamp.send_command` method: filter, short-circuit on `None`,
otherwise perform the transport call(s) and merge. -/
def send_command (transport : Nat → TransportResult) (s : LampState)
    (selfTtime : ℤ) (desired : Command) : SendOutcome :=
  match filterCommand s selfTtime desired with
  | none => ⟨s, [], none⟩
  | some cmds => send_filtered transport s cmds

/-- The device color-temperature value computed by `HueLamp.send_ct`:
`int((1.0 - ct) * (_MAX_CT - _MIN_CT) + _MIN_CT)`. -/
def send_ct_value (ct : ℚ) : ℤ :=
  pyInt ((1 - ct) * (_MAX_CT - _MIN_CT) + _MIN_CT)

/-- The device brightness value computed by `HueLamp.send_bri`:
`int(bri_float * 255)`. -/
def send_bri_value (bri_float : ℚ) : ℤ :=
  pyInt (bri_float * 255)

/-- The `HueLamp.send_ct` method: build the `{ct, transitiontime}` desired
command and hand it to `send_command`. -/
def send_ct (transport : Nat → TransportResult) (s : LampState) (selfTtime : ℤ)
    (ct : ℚ) (ttime : Option ℤ) : SendOutcome :=
  send_command transport s selfTtime
    ⟨none, none, none, some (send_ct_value ct), ttime⟩

/-- The `HueLamp.send_bri` method: build the `{bri, transitiontime}` desired
command and hand it to `send_command`. -/
def send_bri (transport : Nat → TransportResult) (s : LampState) (selfTtime : ℤ)
    (bri_float : ℚ) (ttime : Option ℤ) : SendOutcome :=
  send_command transport s selfTtime
    ⟨none, some (send_bri_value bri_float), none, none, ttime⟩

/-- C1: the source's containment test does not compute the spec's barycentric
`u = (d11*d02 - d01*d12)*invDenom` (it computes `(d11*d02 - d01 + d12)*invDenom`),
and as a consequence it returns false at the centroid of `GAMUT_B`, a point
strictly inside the gamut triangle (and inside per the spec's formula), so
"for all points strictly inside the gamut triangle it returns true" fails. -/
theorem xy_color_in_gamut_misses_interior_point :
    strictlyInside (⟨417/1000, 22/75⟩ : Pt ℚ) GAMUT_B ∧
    xy_in_gamut_specFormula (⟨417/1000, 22/75⟩ : Pt ℚ) GAMUT_B ∧
    ¬ xy_color_in_gamut (⟨417/1000, 22/75⟩ : Pt ℚ) GAMUT_B := by
  refine ⟨?_, ?_, ?_⟩
  · simp only [strictlyInside, GAMUT_B, _make_gamut, dot_def, Pt.sub_def]
    norm_num
  · simp only [xy_in_gamut_specFormula, GAMUT_B, _make_gamut, dot_def, Pt.sub_def]
    norm_num
  · simp only [xy_color_in_gamut, GAMUT_B, _make_gamut, dot_def, Pt.sub_def]
    norm_num

/-- C2: `closest_point_on_line` does not return `A + AB*t`: at `A = (1,0)`,
`B = (2,0)`, `P = (0,0)` the clamped parameter is `t = 0`, the spec's formula
returns `A = (1,0)`, but the source's `(A + AB) * t` returns `(0,0)`, a point
not equal to `A` (and off the segment AB entirely). -/
theorem closest_point_on_line_leaves_segment :
    closest_point_on_line ((⟨1, 0⟩ : Pt ℚ), ⟨2, 0⟩) ⟨0, 0⟩ = ⟨0, 0⟩ ∧
    closestOnSegment_specFormula (⟨1, 0⟩ : Pt ℚ) ⟨2, 0⟩ ⟨0, 0⟩ = ⟨1, 0⟩ ∧
    ((⟨0, 0⟩ : Pt ℚ) ≠ ⟨1, 0⟩) := by
  refine ⟨?_, ?_, by simp⟩
  · simp only [closest_point_on_line, dot_def, Pt.sub_def, Pt.add_def, Pt.hmul_def]
    norm_num
  · simp only [closestOnSegment_specFormula, dot_def, Pt.sub_def, Pt.add_def, Pt.hmul_def]
    norm_num

/-- C3 counterexample: a desired command whose filtering drops every key
(same xy as tracked state with colormode xy, brightness unchanged, fixture
on, default transition time) is NOT treated as NoOp: `_filter_command`
returns the empty dict rather than `None`, and `send_command` still makes
a network call with that empty command. -/
theorem empty_filtered_command_still_sent :
    filterCommand ⟨true, 100, (0, 0), 300, "xy"⟩ 4
        ⟨none, some 100, some (0, 0), none, none⟩ =
      some ⟨none, none, none, none, none⟩ ∧
    (send_command (fun _ => TransportResult.success) ⟨true, 100, (0, 0), 300, "xy"⟩ 4
        ⟨none, some 100, some (0, 0), none, none⟩).sent ≠ [] := by
  decide

/-- C3 (amended): the NoOp short-circuit (no network call) happens exactly
when `_filter_command` returns `None`, which requires `bri == 0` with the
fixture already off; for every other desired command — including one whose
filtering drops all keys — at least one network call is made (the possibly
empty filtered command is sent). -/
theorem noop_shortcircuit_only_for_bri_zero_off (transport : Nat → TransportResult)
    (s : LampState) (tt : ℤ) (d : Command) :
    (filterCommand s tt d = none →
      (send_command transport s tt d).sent = [] ∧ d.bri = some 0 ∧ s.«on» = false) ∧
    (∀ c, filterCommand s tt d = some c → (send_command transport s tt d).sent ≠ []) := by
  constructor
  · intro h
    refine ⟨by simp [send_command, h], ?_⟩
    cases hb : d.bri with
    | none => simp only [filterCommand, hb] at h; simp at h
    | some bri =>
      simp only [filterCommand, hb] at h
      by_cases hz : bri = 0
      · subst hz
        simp only [if_pos rfl] at h
        by_cases hon : s.«on» = false
        · exact ⟨rfl, hon⟩
        · rw [if_neg hon] at h; simp at h
      · rw [if_neg hz] at h; simp at h
  · intro c h
    simp only [send_command, h, send_filtered]
    cases h0 : transport 0 with
    | success => simp
    | raise e =>
      cases e with
      | other => simp [h0]
      | qhue msg =>
        simp only [h0]
        by_cases hm : strContains msg poweredOffMsg
        · simp only [hm, if_true]
          cases h1 : transport 1 <;> simp
        · simp only [hm]; simp

/-- C3 witness: the bri-0-while-off NoOp really makes no call, and the
all-keys-dropped command really does make one. -/
theorem noop_shortcircuit_only_for_bri_zero_off_witness :
    (send_command (fun _ => TransportResult.success) ⟨false, 10, (0, 0), 300, "ct"⟩ 4
        ⟨none, some 0, none, none, none⟩).sent = [] ∧
    (send_command (fun _ => TransportResult.success) ⟨true, 100, (0, 0), 300, "xy"⟩ 4
        ⟨none, some 100, some (0, 0), none, none⟩).sent ≠ [] :=
  ⟨((noop_shortcircuit_only_for_bri_zero_off (fun _ => TransportResult.success)
      ⟨false, 10, (0, 0), 300, "ct"⟩ 4 ⟨none, some 0, none, none, none⟩).1 (by decide)).1,
   (noop_shortcircuit_only_for_bri_zero_off (fun _ => TransportResult.success)
      ⟨true, 100, (0, 0), 300, "xy"⟩ 4 ⟨none, some 100, some (0, 0), none, none⟩).2
     ⟨none, none, none, none, none⟩ (by decide)⟩

/-- C4: a `QhueException` whose message does not contain
"Device is set to off." is NOT propagated: `send_command` catches it,
falls through, and still merges the sent command into the tracked state
(contradicting the code's own "update ... upon success" docstring). -/
theorem send_command_swallows_other_qhue_error :
    send_command (fun _ => TransportResult.raise (PyError.qhue "unknown transport error"))
        ⟨true, 50, (0, 0), 300, "xy"⟩ 4 ⟨none, some 100, none, none, none⟩ =
      ⟨⟨true, 100, (0, 0), 300, "xy"⟩, [⟨none, some 100, none, none, none⟩], none⟩ ∧
    (⟨true, 100, (0, 0), 300, "xy"⟩ : LampState) ≠ ⟨true, 50, (0, 0), 300, "xy"⟩ := by
  decide

/-- C5: when the first transport call raises a `QhueException` whose message
contains "Device is set to off.", `send_command` resends the already-filtered
command exactly once with `on: true` forcibly injected; state is merged
(using the command actually sent) only if that retry succeeds, and if the
retry raises, the error propagates with no state mutation. -/
theorem send_command_powered_off_retry (transport : Nat → TransportResult)
    (s : LampState) (tt : ℤ) (d cmds : Command) (msg : String)
    (hf : filterCommand s tt d = some cmds)
    (h0 : transport 0 = TransportResult.raise (PyError.qhue msg))
    (hmsg : strContains msg poweredOffMsg = true) :
    (transport 1 = TransportResult.success →
      send_command transport s tt d =
        ⟨mergeState s { cmds with «on» := some true }
            (newColormode s { cmds with «on» := some true }),
          [cmds, { cmds with «on» := some true }], none⟩) ∧
    (∀ e, transport 1 = TransportResult.raise e →
      send_command transport s tt d =
        ⟨s, [cmds, { cmds with «on» := some true }], some e⟩) := by
  simp only [send_command, hf, send_filtered, h0, hmsg, if_true]
  constructor
  · intro h1; simp only [h1]
  · intro e h1; simp only [h1]

/-- C5 witness: a powered-off rejection followed by a successful retry, at a
concrete state and brightness command. -/
theorem send_command_powered_off_retry_witness :
    send_command
        (fun n => if n = 0 then TransportResult.raise (PyError.qhue "Device is set to off.")
                  else TransportResult.success)
        ⟨true, 50, (0, 0), 300, "xy"⟩ 4 ⟨none, some 100, none, none, none⟩ =
      ⟨mergeState ⟨true, 50, (0, 0), 300, "xy"⟩
          ⟨some true, some 100, none, none, none⟩
          (newColormode ⟨true, 50, (0, 0), 300, "xy"⟩
            ⟨some true, some 100, none, none, none⟩),
        [⟨none, some 100, none, none, none⟩, ⟨some true, some 100, none, none, none⟩],
        none⟩ :=
  (send_command_powered_off_retry
    (fun n => if n = 0 then TransportResult.raise (PyError.qhue "Device is set to off.")
              else TransportResult.success)
    ⟨true, 50, (0, 0), 300, "xy"⟩ 4 ⟨none, some 100, none, none, none⟩
    ⟨none, some 100, none, none, none⟩ "Device is set to off."
    (by decide) (by decide) (by decide)).1 (by decide)

/-- C6: a desired command with `bri == 0` filters to `None` (NoOp) when the
tracked state says the fixture is already off, and otherwise filters to
exactly the command `{on: false}` with every other key dropped. -/
theorem filter_command_bri_zero (s : LampState) (tt : ℤ) (d : Command)
    (h : d.bri = some 0) :
    (s.«on» = false → filterCommand s tt d = none) ∧
    (s.«on» = true → filterCommand s tt d =
      some ⟨some false, none, none, none, none⟩) := by
  simp only [filterCommand, h]
  constructor
  · intro hon; simp [hon]
  · intro hon; simp [hon]

/-- C6 witness: `bri = 0` alongside xy, ct and transitiontime keys reduces to
exactly `{on: false}` when the fixture is on, and to NoOp when it is off. -/
theorem filter_command_bri_zero_witness :
    filterCommand ⟨true, 80, (0, 0), 300, "xy"⟩ 4
        ⟨none, some 0, some (0, 0), some 200, some 10⟩ =
      some ⟨some false, none, none, none, none⟩ ∧
    filterCommand ⟨false, 80, (0, 0), 300, "xy"⟩ 4
        ⟨none, some 0, some (0, 0), some 200, some 10⟩ = none :=
  ⟨(filter_command_bri_zero ⟨true, 80, (0, 0), 300, "xy"⟩ 4
      ⟨none, some 0, some (0, 0), some 200, some 10⟩ rfl).2 rfl,
   (filter_command_bri_zero ⟨false, 80, (0, 0), 300, "xy"⟩ 4
      ⟨none, some 0, some (0, 0), some 200, some 10⟩ rfl).1 rfl⟩

/-- C7 counterexample: at `t = 9/10` the value the code computes (and sends)
is `int(187.7) = 187`, while the claim's `round((1-t)*(500-153)+153)` is 188;
likewise `send_bri` at `b = 1/2` computes `int(127.5) = 127` while the
claim's `round(b*255)` is 128. -/
theorem send_ct_truncates_not_rounds :
    send_ct_value (9/10) = 187 ∧
    round ((1 - (9/10 : ℚ)) * (_MAX_CT - _MIN_CT) + _MIN_CT) = 188 ∧
    send_bri_value (1/2) = 127 ∧
    round ((1/2 : ℚ) * 255) = 128 ∧
    (send_ct (fun _ => TransportResult.success) ⟨true, 50, (0, 0), 300, "xy"⟩ 4 (9/10)
        none).sent = [⟨none, none, none, some 187, none⟩] := by
  have h187 : send_ct_value (9/10) = 187 := by
    norm_num [send_ct_value, pyInt, _MAX_CT, _MIN_CT]
  refine ⟨h187, by norm_num [_MAX_CT, _MIN_CT, round_eq], ?_, ?_, ?_⟩
  · norm_num [send_bri_value, pyInt]
  · norm_num [round_eq]
  · simp only [send_ct, h187]
    decide

/-- C7 (amended): for `t` in `[0,1]`, `send_ct` sends the device value
`ct = floor((1-t)*(500-153)+153)` (Python `int` truncation, not rounding),
which is antitone in `t` (higher input, lower device value); and for
`b ≥ 0`, `send_bri` sends `bri = floor(b*255)`. -/
theorem send_ct_send_bri_floor_and_antitone (transport : Nat → TransportResult)
    (s : LampState) (tt : ℤ) (ttime : Option ℤ) (t b t1 t2 : ℚ)
    (ht0 : 0 ≤ t) (ht1 : t ≤ 1) (hb : 0 ≤ b)
    (h1 : 0 ≤ t1) (h12 : t1 ≤ t2) (h2 : t2 ≤ 1) :
    send_ct transport s tt t ttime =
      send_command transport s tt
        ⟨none, none, none, some ⌊(1 - t) * (_MAX_CT - _MIN_CT) + _MIN_CT⌋, ttime⟩ ∧
    send_bri transport s tt b ttime =
      send_command transport s tt ⟨none, some ⌊b * 255⌋, none, none, ttime⟩ ∧
    send_ct_value t2 ≤ send_ct_value t1 := by
  have hval : ∀ u : ℚ, 0 ≤ u → u ≤ 1 →
      send_ct_value u = ⌊(1 - u) * (_MAX_CT - _MIN_CT) + _MIN_CT⌋ := by
    intro u hu0 hu1
    have hnn : (0 : ℚ) ≤ (1 - u) * (_MAX_CT - _MIN_CT) + _MIN_CT := by
      have hp : (0 : ℚ) ≤ (1 - u) * (_MAX_CT - _MIN_CT) :=
        mul_nonneg (by linarith) (by norm_num [_MAX_CT, _MIN_CT])
      have hm : (0 : ℚ) ≤ _MIN_CT := by norm_num [_MIN_CT]
      linarith
    simp [send_ct_value, pyInt, hnn]
  refine ⟨?_, ?_, ?_⟩
  · rw [send_ct, hval t ht0 ht1]
  · have hnn : (0 : ℚ) ≤ b * 255 := by positivity
    rw [send_bri]
    simp [send_bri_value, pyInt, hnn]
  · rw [hval t1 h1 (le_trans h12 h2), hval t2 (le_trans h1 h12) h2]
    apply Int.floor_le_floor
    have hm : (1 - t2) * (_MAX_CT - _MIN_CT) ≤ (1 - t1) * (_MAX_CT - _MIN_CT) := by
      apply mul_le_mul_of_nonneg_right (by linarith)
      norm_num [_MAX_CT, _MIN_CT]
    linarith

/-- C7 witness: the floor form and antitonicity at concrete inputs. -/
theorem send_ct_send_bri_floor_and_antitone_witness :
    send_ct (fun _ => TransportResult.success) ⟨true, 50, (0, 0), 300, "xy"⟩ 4 (9/10) none =
      send_command (fun _ => TransportResult.success) ⟨true, 50, (0, 0), 300, "xy"⟩ 4
        ⟨none, none, none,
          some ⌊(1 - (9/10 : ℚ)) * (_MAX_CT - _MIN_CT) + _MIN_CT⌋, none⟩ ∧
    send_bri (fun _ => TransportResult.success) ⟨true, 50, (0, 0), 300, "xy"⟩ 4 (1/2) none =
      send_command (fun _ => TransportResult.success) ⟨true, 50, (0, 0), 300, "xy"⟩ 4
        ⟨none, some ⌊(1/2 : ℚ) * 255⌋, none, none, none⟩ ∧
    send_ct_value (3/4) ≤ send_ct_value (1/4) :=
  send_ct_send_bri_floor_and_antitone (fun _ => TransportResult.success)
    ⟨true, 50, (0, 0), 300, "xy"⟩ 4 none (9/10) (1/2) (1/4) (3/4)
    (by norm_num) (by norm_num) (by norm_num) (by norm_num) (by norm_num) (by norm_num)

/-- C8: whenever the chromaticity computed inside `rgb_to_xy` passes the
containment test, `rgb_to_xy` returns it numerically unchanged — the
nearest-boundary-point coercion runs only when the containment test fails. -/
theorem rgb_to_xy_in_gamut_unchanged (rgb : ℝ × ℝ × ℝ) (gamut : Gamut ℝ) (gc : Bool)
    (h : xy_color_in_gamut (rgb_to_xy_chroma rgb gc).1 gamut) :
    (rgb_to_xy rgb gamut gc).1 = (rgb_to_xy_chroma rgb gc).1 := by
  simp only [rgb_to_xy, coerce_into_gamut, if_neg (not_not_intro h)]

/-- C8 witness: a concrete RGB whose computed chromaticity passes the
source's containment test for `GAMUT_B` and is returned unchanged. -/
theorem rgb_to_xy_in_gamut_unchanged_witness :
    (rgb_to_xy (0.716, 0.167, 0.143) GAMUT_B false).1 =
      (rgb_to_xy_chroma (0.716, 0.167, 0.143) false).1 :=
  rgb_to_xy_in_gamut_unchanged (0.716, 0.167, 0.143) GAMUT_B false
    (by norm_num [rgb_to_xy_chroma, rgbCorrected, xyzX, xyzY, xyzZ, xy_color_in_gamut,
      GAMUT_B, _make_gamut])

/-- C9: when `X + Y + Z = 0` for the (possibly gamma-corrected) RGB input,
the chromaticity inside `rgb_to_xy` is defined as `(0,0)` instead of
performing the division, so the conversion is total over all RGB inputs. -/
theorem rgb_to_xy_zero_divisor_guard (rgb : ℝ × ℝ × ℝ) (gamut : Gamut ℝ) (gc : Bool)
    (h : xyzX (rgbCorrected rgb gc) + xyzY (rgbCorrected rgb gc) +
      xyzZ (rgbCorrected rgb gc) = 0) :
    (rgb_to_xy_chroma rgb gc).1 = ⟨0, 0⟩ ∧
    rgb_to_xy rgb gamut gc = (coerce_into_gamut ⟨0, 0⟩ gamut, xyzY (rgbCorrected rgb gc)) := by
  have h1 : (rgb_to_xy_chroma rgb gc).1 = ⟨0, 0⟩ := by
    simp only [rgb_to_xy_chroma, if_pos h]
  refine ⟨h1, ?_⟩
  simp only [rgb_to_xy, h1]
  simp only [rgb_to_xy_chroma]

/-- C9 witness: black input (0,0,0) with gamma correction disabled reaches
the zero-divisor guard. -/
theorem rgb_to_xy_zero_divisor_guard_witness :
    (rgb_to_xy_chroma (0, 0, 0) false).1 = ⟨0, 0⟩ ∧
    rgb_to_xy (0, 0, 0) GAMUT_B false =
      (coerce_into_gamut ⟨0, 0⟩ GAMUT_B, xyzY (rgbCorrected (0, 0, 0) false)) :=
  rgb_to_xy_zero_divisor_guard (0, 0, 0) GAMUT_B false
    (by norm_num [xyzX, xyzY, xyzZ, rgbCorrected])

/-- C10: after a powered-off rejection of the first send, the retried
command is the filtered command with `on` overwritten to `true` regardless
of its prior value — in particular a filtered `{on: false}` turn-off is
retried as `{on: true}`, inverting the caller's requested power state. -/
theorem send_command_retry_overrides_requested_off (transport : Nat → TransportResult)
    (s : LampState) (tt : ℤ) (d cmds : Command) (msg : String)
    (hf : filterCommand s tt d = some cmds)
    (h0 : transport 0 = TransportResult.raise (PyError.qhue msg))
    (hmsg : strContains msg poweredOffMsg = true) :
    (send_command transport s tt d).sent = [cmds, { cmds with «on» := some true }] ∧
    ({ cmds with «on» := some true }).«on» = some true := by
  simp only [send_command, hf, send_filtered, h0, hmsg, if_true]
  refine ⟨?_, trivial⟩
  cases h1 : transport 1 <;> simp only [h1]

/-- C10 witness: a `bri = 0` turn-off filtered to `{on: false}` against a
stale tracked on-state is retried as `{on: true}` after the powered-off
rejection. -/
theorem send_command_retry_overrides_requested_off_witness :
    (send_command
        (fun n => if n = 0 then TransportResult.raise (PyError.qhue "Device is set to off.")
                  else TransportResult.success)
        ⟨true, 80, (0, 0), 300, "xy"⟩ 4 ⟨none, some 0, none, none, none⟩).sent =
      [⟨some false, none, none, none, none⟩, ⟨some true, none, none, none, none⟩] :=
  (send_command_retry_overrides_requested_off
    (fun n => if n = 0 then TransportResult.raise (PyError.qhue "Device is set to off.")
              else TransportResult.success)
    ⟨true, 80, (0, 0), 300, "xy"⟩ 4 ⟨none, some 0, none, none, none⟩
    ⟨some false, none, none, none, none⟩ "Device is set to off."
    (by decide) (by decide) (by decide)).1
